import Mathlib

/-!
Verification of the Dr.Document documentation-generation backend.

The Python backend (`backend/workflow.py` and `backend/agents/*.py`) is
shallowly embedded here.  Python strings are modelled as `List Char`,
Python dicts with a fixed key set as Lean structures (or, where the key
set itself is in question, as association lists of `PyVal`), and code
that can raise as `Except Err`.  The LLM-backed agents are deterministic
wrappers around one text-generation call each; every such call is
modelled as an oracle function (a "stub" in the spec's terminology)
supplied as a parameter, indexed by the data that varies between calls
(cycle number, attempt number, heading, improvement notes, ...), so that
the theorems quantify over every possible sequence of generated texts.
-/

/-! ## Python string primitives (over `List Char`) -/

/-- Python whitespace for `str.strip` / `\s` (ASCII range, which is all the
    backend's patterns and constants use). -/
def pySpace (c : Char) : Bool :=
  c = ' ' || c = '\t' || c = '\n' || c = '\r' || c = '\x0b' || c = '\x0c'

/-- Python `str.upper()` (ASCII). -/
def pyUpper (s : List Char) : List Char := s.map Char.toUpper

/-- Python `str.lower()` (ASCII). -/
def pyLower (s : List Char) : List Char := s.map Char.toLower

/-- Python `str.strip()`: drop whitespace from both ends. -/
def pyStrip (s : List Char) : List Char :=
  ((s.dropWhile pySpace).reverse.dropWhile pySpace).reverse

/-- Python `str.lstrip(chars)`: drop the leading characters that belong to
    the given set. -/
def pyLstripSet (chars s : List Char) : List Char :=
  s.dropWhile (fun c => chars.contains c)

/-- Python substring test `needle in haystack`. -/
def containsSub (needle hay : List Char) : Bool :=
  hay.tails.any (fun t => needle.isPrefixOf t)

/-- Python `text.split('\n')`. -/
def splitNL (s : List Char) : List (List Char) := s.splitOn '\n'

/-- Python `'\n'.join(parts)`. -/
def joinNL (parts : List (List Char)) : List Char := List.intercalate ['\n'] parts

/-- Python `text.split(sep)` restricted to the first separator occurrence:
    returns `(before, after)` for the first occurrence of `sep`, or `none`
    when `sep` does not occur. -/
def splitFirst (sep : List Char) : List Char → Option (List Char × List Char)
  | [] => if sep.isPrefixOf ([] : List Char) then some ([], []) else none
  | c :: rest =>
    if sep.isPrefixOf (c :: rest) then some ([], (c :: rest).drop sep.length)
    else (splitFirst sep rest).map (fun p => (c :: p.1, p.2))

/-- Python `text.split(sep)[1][:n]`: the segment between the first and the
    second occurrence of `sep` (or everything after the first occurrence if
    there is no second one), truncated to `n` characters.  Returns `[]`
    when `sep` does not occur at all (the code only evaluates this after
    checking that `sep` occurs). -/
def splitSecondSegment (sep text : List Char) (n : Nat) : List Char :=
  match splitFirst sep text with
  | none => []
  | some (_, post) =>
    match splitFirst sep post with
    | none => post.take n
    | some (mid, _) => mid.take n

/-! ## Review-Text Parser: approval extraction

Embeds `FinalReviewerAgent._extract_approval` (final_reviewer.py:165-190)
and `ManagerAgent._extract_approval` (manager.py:157-168). -/

def kwAPPROVE : List Char := "APPROVE".data
def kwVERDICT : List Char := "VERDICT".data
def kwREJECT : List Char := "REJECT".data
def kwYES : List Char := "YES".data
def kwAPPROVAL : List Char := "APPROVAL".data
def kwAPPROVED : List Char := "APPROVED".data
def kwPROCEED : List Char := "PROCEED".data

/-- `approval_keywords = ['APPROVED', 'ACCEPT', 'APPROVE']` in
    `FinalReviewerAgent._extract_approval`. -/
def finalApprovalKeywords : List (List Char) :=
  ["APPROVED".data, "ACCEPT".data, "APPROVE".data]

/-- `rejection_keywords = ['REJECT', 'DECLINED', 'DENIED']` in
    `FinalReviewerAgent._extract_approval`. -/
def finalRejectionKeywords : List (List Char) :=
  ["REJECT".data, "DECLINED".data, "DENIED".data]

/-- `has_approval` of `FinalReviewerAgent._extract_approval`. -/
def finalHasApproval (review : List Char) : Bool :=
  finalApprovalKeywords.any (fun k => containsSub k (pyUpper review))

/-- `has_rejection` of `FinalReviewerAgent._extract_approval`. -/
def finalHasRejection (review : List Char) : Bool :=
  finalRejectionKeywords.any (fun k => containsSub k (pyUpper review))

/-- `FinalReviewerAgent._extract_approval` (final_reviewer.py:165-190):
    explicit verdict window first, then keyword presence with a verdict
    window arbitration, then `has_approval and not has_rejection`. -/
def finalExtractApproval (review : List Char) : Bool :=
  let up := pyUpper review
  if containsSub kwAPPROVE up && containsSub kwVERDICT up
      && !containsSub kwREJECT (splitSecondSegment kwVERDICT up 200) then
    true
  else
    let hasApproval := finalHasApproval review
    let hasRejection := finalHasRejection review
    if hasApproval && hasRejection && containsSub kwVERDICT up then
      finalApprovalKeywords.any
        (fun k => containsSub k (splitSecondSegment kwVERDICT up 300))
    else
      hasApproval && !hasRejection

/-- `ManagerAgent._extract_approval` (manager.py:157-168). -/
def managerExtractApproval (review : List Char) : Bool :=
  let up := pyUpper review
  if containsSub kwYES up && containsSub kwAPPROVAL up then true
  else if containsSub kwAPPROVED up then true
  else if containsSub kwPROCEED up && containsSub kwYES up then true
  else false

/-! ## Review-Text Parser: score extraction

Embeds the four regex patterns of `FinalReviewerAgent._extract_score`
(final_reviewer.py:192-217) and the three of
`ManagerAgent._extract_quality_score` (manager.py:170-187) with Python
`re.search` leftmost-match semantics. -/

/-- Maximal leading digit run. -/
def digitsRun (s : List Char) : List Char := s.takeWhile Char.isDigit

/-- Value of a digit string (`int(match.group(1))`). -/
def digitsToNat (ds : List Char) : Nat :=
  ds.foldl (fun acc c => acc * 10 + (c.toNat - 48)) 0

/-- Anchored match for `(\d{1,3})/100`.  Because `\d{1,3}` is followed by
    a non-digit literal, a backtracking match anchored here succeeds only
    by consuming the whole digit run, so the run must have length 1-3. -/
def scorePatSlash100 (t : List Char) : Option Nat :=
  let ds := digitsRun t
  if 1 ≤ ds.length && ds.length ≤ 3 && "/100".data.isPrefixOf (t.drop ds.length) then
    some (digitsToNat ds)
  else none

/-- Anchored match for `[Ss]core[:\s]+(\d{1,3})`.  The separator class
    contains no digits, so the greedy `[:\s]+` consumes its maximal run;
    the group then takes up to three digits. -/
def scorePatLabel (t : List Char) : Option Nat :=
  match t with
  | [] => none
  | c :: rest =>
    if (c = 'S' || c = 's') && "core".data.isPrefixOf rest then
      let afterCore := rest.drop 4
      let sep := afterCore.takeWhile (fun d => d = ':' || pySpace d)
      if 1 ≤ sep.length then
        let ds := digitsRun (afterCore.drop sep.length)
        if 1 ≤ ds.length then some (digitsToNat (ds.take 3)) else none
      else none
    else none

/-- Anchored match for `(\d{1,3})\s+out of 100`: the digits must be the
    whole digit run (a digit is not `\s`), then whitespace, then the
    literal. -/
def scorePatOutOf (t : List Char) : Option Nat :=
  let ds := digitsRun t
  if 1 ≤ ds.length && ds.length ≤ 3 then
    let after := t.drop ds.length
    let sep := after.takeWhile pySpace
    if 1 ≤ sep.length && "out of 100".data.isPrefixOf (after.drop sep.length) then
      some (digitsToNat ds)
    else none
  else none

/-- Anchored match for `:\s+(\d{1,3})`. -/
def scorePatColon (t : List Char) : Option Nat :=
  match t with
  | [] => none
  | c :: rest =>
    if c = ':' then
      let sep := rest.takeWhile pySpace
      if 1 ≤ sep.length then
        let ds := digitsRun (rest.drop sep.length)
        if 1 ≤ ds.length then some (digitsToNat (ds.take 3)) else none
      else none
    else none

/-- `re.search`: try the anchored matcher at every position, leftmost
    success wins. -/
def reSearch (matchAt : List Char → Option Nat) : List Char → Option Nat
  | [] => matchAt []
  | c :: rest =>
    match matchAt (c :: rest) with
    | some n => some n
    | none => reSearch matchAt rest

/-- The pattern cascade of `FinalReviewerAgent._extract_score`: the four
    patterns are tried in order, each with a full leftmost search. -/
def scorePatternsSearch (t : List Char) : Option Nat :=
  match reSearch scorePatSlash100 t with
  | some n => some n
  | none =>
    match reSearch scorePatLabel t with
    | some n => some n
    | none =>
      match reSearch scorePatOutOf t with
      | some n => some n
      | none => reSearch scorePatColon t

/-- The line scan of `FinalReviewerAgent._extract_score`: find a line
    containing the category label, search the 5-line window starting
    there; if the window has no pattern match, keep scanning later
    lines. -/
def scoreScan (categoryUp : List Char) : List (List Char) → Option Nat
  | [] => none
  | line :: rest =>
    if containsSub categoryUp (pyUpper line) then
      match scorePatternsSearch (joinNL ((line :: rest).take 5)) with
      | some n => some n
      | none => scoreScan categoryUp rest
    else scoreScan categoryUp rest

/-- `FinalReviewerAgent._extract_score` (final_reviewer.py:192-217):
    scan for the category, clamp any matched score with
    `min(100, max(0, score))`, else default to 75/60 by approval. -/
def extractScore (review category : List Char) : Nat :=
  match scoreScan (pyUpper category) (splitNL review) with
  | some score => min 100 (max 0 score)
  | none => if finalExtractApproval review then 75 else 60

/-- `ManagerAgent._extract_quality_score` (manager.py:170-187): the first
    three patterns over the whole review, defaults 70/50 by approval. -/
def extractQualityScore (review : List Char) : Nat :=
  match reSearch scorePatSlash100 review with
  | some s => min 100 (max 0 s)
  | none =>
    match reSearch scorePatLabel review with
    | some s => min 100 (max 0 s)
    | none =>
      match reSearch scorePatOutOf review with
      | some s => min 100 (max 0 s)
      | none => if managerExtractApproval review then 70 else 50

/-! ## Review-Text Parser: list / suggestion extraction -/

/-- First character is a digit (`line[0].isdigit()` on a nonempty string). -/
def headIsDigit : List Char → Bool
  | [] => false
  | c :: _ => c.isDigit

/-- The strip set `'-•0123456789. '` of `_extract_list` /
    `_extract_suggestions`. -/
def bulletStripSet : List Char := "-•0123456789. ".data

/-- The bullet test shared by `_extract_list` and `_extract_suggestions`:
    `line.startswith('-') or line.startswith('•') or
     (line[0].isdigit() and '.' in line[:3])` on the stripped line. -/
def bulletLike (ls : List Char) : Bool :=
  "-".data.isPrefixOf ls || "•".data.isPrefixOf ls
    || (headIsDigit ls && (ls.take 3).contains '.')

/-- Loop of `FinalReviewerAgent._extract_list` (final_reviewer.py:219-242).
    The section flag is (re)set by any line containing the section name;
    inside the section, a stripped-nonempty line whose first character is
    a digit with a dot in the first five raw characters ends the scan. -/
def extractListGo (secUp : List Char) (inSection : Bool) :
    List (List Char) → List (List Char)
  | [] => []
  | line :: rest =>
    if containsSub secUp (pyUpper line) then extractListGo secUp true rest
    else if inSection then
      let ls := pyStrip line
      if ls ≠ [] && headIsDigit ls && (line.take 5).contains '.' then []
      else if ls ≠ [] && bulletLike ls then
        let item := pyLstripSet bulletStripSet ls
        if item ≠ [] then item :: extractListGo secUp true rest
        else extractListGo secUp true rest
      else extractListGo secUp true rest
    else extractListGo secUp false rest

/-- `FinalReviewerAgent._extract_list`: capped at 15 items. -/
def extractList (review secName : List Char) : List (List Char) :=
  (extractListGo (pyUpper secName) false (splitNL review)).take 15

/-- Loop of `ManagerAgent._extract_suggestions` (manager.py:189-208):
    same bullet collection, triggered by `IMPROVEMENT`/`SUGGESTION`
    labels, with no early stop. -/
def extractSuggestionsGo (inSug : Bool) : List (List Char) → List (List Char)
  | [] => []
  | line :: rest =>
    if containsSub "IMPROVEMENT".data (pyUpper line)
        || containsSub "SUGGESTION".data (pyUpper line) then
      extractSuggestionsGo true rest
    else if inSug then
      let ls := pyStrip line
      if ls ≠ [] && bulletLike ls then
        let sug := pyLstripSet bulletStripSet ls
        if sug ≠ [] then sug :: extractSuggestionsGo true rest
        else extractSuggestionsGo true rest
      else extractSuggestionsGo true rest
    else extractSuggestionsGo false rest

/-- `ManagerAgent._extract_suggestions`: capped at 10 items. -/
def extractSuggestions (review : List Char) : List (List Char) :=
  (extractSuggestionsGo false (splitNL review)).take 10

/-- `ManagerAgent._should_retry` (manager.py:210-218). -/
def managerShouldRetry (review : List Char) : Bool :=
  if !managerExtractApproval review then
    let score := extractQualityScore review
    decide (40 ≤ score) && decide (score ≤ 70)
  else false

/-! ## ManagerAgent.process result (manager.py:92-98)

The workflow reads the manager's verdict through `dict.get`, so the
manager's result is embedded as an association list of Python values:
whether a key is *present* is exactly what claim C3 turns on. -/

/-- A Python value as stored in an agent's result dict. -/
inductive PyVal where
  | str (s : List Char)
  | int (n : Nat)
  | bool (b : Bool)
  | list (l : List PyVal)

/-- Python `d.get(key, default)` over an association-list dict. -/
def dictGet (d : List (List Char × PyVal)) (key : List Char) (dflt : PyVal) : PyVal :=
  ((d.find? (fun kv => kv.1 == key)).map (fun kv => kv.2)).getD dflt

/-- The result dict built by `ManagerAgent.process` (manager.py:92-98)
    from the generated review text.  The prompt-building inputs
    (`code_analyses`, `requirements`, `repo_name`) only shape the prompt,
    which is absorbed into the review-text oracle; the returned dict is a
    pure function of the review text. -/
def managerProcess (review : List Char) : List (List Char × PyVal) :=
  [("approved".data, PyVal.bool (managerExtractApproval review)),
   ("quality_score".data, PyVal.int (extractQualityScore review)),
   ("feedback".data, PyVal.str review),
   ("improvement_suggestions".data,
     PyVal.list ((extractSuggestions review).map PyVal.str)),
   ("should_retry".data, PyVal.bool (managerShouldRetry review))]

/-! ## FinalReviewerAgent.process (final_reviewer.py:15-127, 244-253) -/

/-- Error payload of a raised Python exception (its message). -/
def Err : Type := List Char

/-- The structured verdict assembled by `FinalReviewerAgent.process`
    (all keys are always present, so a structure is faithful). -/
structure FinalVerdict where
  approved : Bool
  completeness_score : Nat
  accuracy_score : Nat
  issues : List (List Char)
  recommendations : List (List Char)
  final_verdict : List Char
deriving DecidableEq

/-- `FinalReviewerAgent._rejection_result` (final_reviewer.py:244-253). -/
def rejectionResult (reason : List Char) : FinalVerdict :=
  { approved := false
    completeness_score := 0
    accuracy_score := 0
    issues := [reason]
    recommendations := ["Generate valid README content".data]
    final_verdict := "REJECTED: ".data ++ reason }

/-- `FinalReviewerAgent.process`: empty/whitespace README short-circuits
    to `_rejection_result` before any LLM call; otherwise one
    text-generation call (the `gateway` oracle, which may raise) is
    parsed into the verdict structure. -/
def finalReviewerProcess (readme : List Char) (gateway : Except Err (List Char)) :
    Except Err FinalVerdict :=
  if pyStrip readme = [] then
    .ok (rejectionResult "README content is empty".data)
  else
    match gateway with
    | .error e => .error e
    | .ok review =>
      .ok { approved := finalExtractApproval review
            completeness_score := extractScore review "COMPLETENESS".data
            accuracy_score := extractScore review "ACCURACY".data
            issues := extractList review "ISSUES".data
            recommendations := extractList review "RECOMMENDATIONS".data
            final_verdict := review }

/-! ## SectionWriterAgent._trim_to_single_section (section_writer.py:169-216) -/

/-- The code-fence toggle of `_trim_to_single_section`: a stripped line
    starting with ``` or ~~~ toggles the fence flag only when the rest of
    the line after removing the leading fence characters (and surrounding
    whitespace) contains no space. -/
def fenceToggle (inFence : Bool) (stripped : List Char) : Bool :=
  if "```".data.isPrefixOf stripped || "~~~".data.isPrefixOf stripped then
    let fc := stripped.headD ' '
    let rest := pyStrip (stripped.dropWhile (fun c => c = fc))
    if !(rest.contains ' ') then !inFence else inFence
  else inFence

/-- H1/H2 heading test on a stripped line (`startswith('# ')` /
    `startswith('## ')`); deeper headings do not match. -/
def topHeadingLine (stripped : List Char) : Bool :=
  "# ".data.isPrefixOf stripped || "## ".data.isPrefixOf stripped

/-- The line loop of `_trim_to_single_section`: before the section's own
    heading every line is kept; after it, the next top-level heading
    outside a code fence stops the scan. -/
def trimLoop (foundMain inFence : Bool) : List (List Char) → List (List Char)
  | [] => []
  | line :: rest =>
    let stripped := pyStrip line
    let inFence2 := fenceToggle inFence stripped
    let isTop := !inFence2 && topHeadingLine stripped
    if foundMain then
      if isTop then [] else line :: trimLoop foundMain inFence2 rest
    else
      line :: trimLoop isTop inFence2 rest

/-- `SectionWriterAgent._trim_to_single_section`. -/
def trimToSingleSection (content : List Char) : List Char :=
  pyStrip (joinNL (trimLoop false false (splitNL content)))

/-- Specification-side view for claim C6: the indices of the top-level
    (H1/H2) heading lines that lie *outside* fenced code blocks, fences
    toggled per the spec's rule (only when the text after the fence
    marker contains no space). -/
def topHeadingIdx (inFence : Bool) : List (List Char) → List Nat
  | [] => []
  | line :: rest =>
    let stripped := pyStrip line
    let inFence2 := fenceToggle inFence stripped
    let tail := (topHeadingIdx inFence2 rest).map (fun i => i + 1)
    if !inFence2 && topHeadingLine stripped then 0 :: tail else tail

/-! ## HeadingsSelectorAgent.process parsing (headings_selector.py:113-122) -/

/-- The strip set `'-•* 0123456789.'` of the heading parser. -/
def headingBulletSet : List Char := "-•* 0123456789.".data

/-- `line.strip().lstrip('-•* 0123456789.')`. -/
def cleanHeadingLine (line : List Char) : List Char :=
  pyLstripSet headingBulletSet (pyStrip line)

/-- The parse/deduplicate loop of `HeadingsSelectorAgent.process`:
    `seen` holds the lower-cased headings already emitted. -/
def headingsDedupGo (seen : List (List Char)) : List (List Char) → List (List Char)
  | [] => []
  | line :: rest =>
    let heading := cleanHeadingLine line
    if heading ≠ [] && !(seen.contains (pyLower heading)) then
      heading :: headingsDedupGo (pyLower heading :: seen) rest
    else headingsDedupGo seen rest

/-- Heading parsing of `HeadingsSelectorAgent.process` applied to the raw
    generated text. -/
def parseHeadings (raw : List Char) : List (List Char) :=
  headingsDedupGo [] (splitNL (pyStrip raw))

/-- Specification-side view for claim C7 (follows the spec's words, to be
    compared with `parseHeadings`): case-insensitive deduplication of an
    already-cleaned heading list in which the first occurrence wins and
    order is preserved. -/
def dedupCaseInsensitiveGo (seenKeys : List (List Char)) :
    List (List Char) → List (List Char)
  | [] => []
  | h :: rest =>
    if seenKeys.contains (pyLower h) then dedupCaseInsensitiveGo seenKeys rest
    else h :: dedupCaseInsensitiveGo (pyLower h :: seenKeys) rest

/-- Specification-side: dedup over the cleaned nonempty parsed lines. -/
def dedupCaseInsensitive (hs : List (List Char)) : List (List Char) :=
  dedupCaseInsensitiveGo [] hs

/-! ## DocumentationWorkflow (workflow.py)

The coordinator's loops.  Reviewer verdicts are read by the workflow
through `dict.get('approved', False)` / `dict.get('improvement_notes', '')`
(section level) and `dict.get('approved', False)` /
`dict.get('improvement_details', '')` (document level); the records below
expose exactly those observations, with `Option` marking a key that an
oracle's dict may lack (`none` makes the `get` fall back to `''`). -/

/-- What the workflow reads from a section review dict. -/
structure ReviewResult where
  approved : Bool
  improvement_notes : Option (List Char)

/-- What the workflow reads from a final (document) review dict. -/
structure FinalReviewResult where
  approved : Bool
  improvement_details : Option (List Char)
  completeness_score : Nat
  accuracy_score : Nat

/-- `max_section_retries = 3` (workflow.py:404). -/
def max_section_retries : Nat := 3

/-- `max_full_cycles = 3` (workflow.py:210). -/
def max_full_cycles : Nat := 3

/-- The attempt loop `for attempt in range(1, max_section_retries + 1)`
    (workflow.py:417-508).  `write attempt notes` is the section-writer
    LLM call of that attempt, `review attempt content` the manager review
    call; either may raise, which aborts the whole job.  `done` tracks
    the last attempt that ran; the returned pair is (attempts executed,
    section content kept). -/
def sectionAttemptsLoop (write : Nat → List Char → Except Err (List Char))
    (review : Nat → List Char → Except Err ReviewResult) :
    List Nat → List Char → List Char → Nat → Except Err (Nat × List Char)
  | [], _, content, done => .ok (done, content)
  | attempt :: restAttempts, notes, _, _ =>
    match write attempt notes with
    | .error e => .error e
    | .ok c =>
      match review attempt c with
      | .error e => .error e
      | .ok r =>
        if r.approved then .ok (attempt, c)
        else
          sectionAttemptsLoop write review restAttempts
            (r.improvement_notes.getD []) c attempt

/-- One heading's write/review retry loop: attempts 1..3, improvement
    notes seeded with the carried-over global (document-level) notes. -/
def runSection (write : Nat → List Char → Except Err (List Char))
    (review : Nat → List Char → Except Err ReviewResult)
    (globalNotes : List Char) : Except Err (Nat × List Char) :=
  sectionAttemptsLoop write review (List.range' 1 max_section_retries)
    globalNotes [] 0

/-- `DocumentationWorkflow._write_and_review_sections`
    (workflow.py:386-512): one entry appended per heading, in order,
    whatever the review outcomes were. -/
def sectionsLoop (write : List Char → Nat → List Char → Except Err (List Char))
    (review : List Char → Nat → List Char → Except Err ReviewResult) :
    List (List Char) → List Char → Except Err (List (List Char × List Char))
  | [], _ => .ok []
  | h :: rest, globalNotes =>
    match runSection (write h) (review h) globalNotes with
    | .error e => .error e
    | .ok res =>
      match sectionsLoop write review rest globalNotes with
      | .error e => .error e
      | .ok tail => .ok ((h, res.2) :: tail)

/-- `DocumentationWorkflow._combine_sections` (workflow.py:518-524):
    a `# {repo_name}` title part followed by each section's content with
    a blank part after it, all newline-joined. -/
def combineSections (repoName : List Char) (sections : List (List Char × List Char)) :
    List Char :=
  joinNL (("# ".data ++ repoName ++ "\n".data) ::
    (sections.map (fun s => [s.2, ([] : List Char)])).flatten)

/-- The cycle loop `for cycle in range(1, max_full_cycles + 1)`
    (workflow.py:215-292).  Per cycle: run the section phase with the
    carried improvement notes, assemble the README, run the document
    review; approval exits, rejection carries
    `get('improvement_details', '')` into the next cycle.  `done` tracks
    the last cycle that ran; the result is (cycles executed, final
    README, final review). -/
def docCyclesLoop (repoName : List Char)
    (headings : List (List Char))
    (write : Nat → List Char → Nat → List Char → Except Err (List Char))
    (review : Nat → List Char → Nat → List Char → Except Err ReviewResult)
    (reviewDoc : Nat → List Char → Except Err FinalReviewResult) :
    List Nat → List Char → List Char → FinalReviewResult → Nat →
    Except Err (Nat × List Char × FinalReviewResult)
  | [], _, readme, res, done => .ok (done, readme, res)
  | cycle :: restCycles, notes, _, _, _ =>
    match sectionsLoop (write cycle) (review cycle) headings notes with
    | .error e => .error e
    | .ok secs =>
      let readme := combineSections repoName secs
      match reviewDoc cycle readme with
      | .error e => .error e
      | .ok res =>
        if res.approved then .ok (cycle, readme, res)
        else
          docCyclesLoop repoName headings write review reviewDoc restCycles
            (res.improvement_details.getD []) readme res cycle

/-- The initial `final_review_result = {}` (workflow.py:212): every later
    `get` falls back to its default. -/
def emptyFinalReview : FinalReviewResult :=
  { approved := false, improvement_details := none
    completeness_score := 0, accuracy_score := 0 }

/-- The document loop of `DocumentationWorkflow.execute`
    (workflow.py:210-292), with `final_readme = ''` and
    `improvement_details = ''` as initial state. -/
def docCycles (repoName : List Char) (headings : List (List Char))
    (write : Nat → List Char → Nat → List Char → Except Err (List Char))
    (review : Nat → List Char → Nat → List Char → Except Err ReviewResult)
    (reviewDoc : Nat → List Char → Except Err FinalReviewResult) :
    Except Err (Nat × List Char × FinalReviewResult) :=
  docCyclesLoop repoName headings write review reviewDoc
    (List.range' 1 max_full_cycles) [] [] emptyFinalReview 0

/-! ## DocumentationWorkflow.execute (workflow.py:124-328) -/

/-- One file's pass through `_run_codebase_summarizer`'s body
    (workflow.py:342-367): `.error` is a raised exception, caught by the
    per-file `except` and skipped; `.ok none` is unreadable/empty content
    (also skipped); `.ok (some line)` contributes
    `"{path} = {summary}"`. -/
def summarizerStage (perFile : List (Except Err (Option (List Char)))) : List Char :=
  joinNL (perFile.foldr
    (fun o acc => match o with | .ok (some l) => l :: acc | _ => acc) [])

/-- The message of `raise ValueError("No supported files found in
    repository")` (workflow.py:162). -/
def noFilesMsg : Err := "No supported files found in repository".data

/-- The final result dict of `DocumentationWorkflow.execute`
    (workflow.py:301-315), restricted to its data-bearing fields. -/
structure WorkflowResult where
  repo_name : List Char
  readme : List Char
  files_analyzed : Nat
  headings : List (List Char)
  approved : Bool
  completeness_score : Nat
  accuracy_score : Nat

/-- `DocumentationWorkflow.execute` (workflow.py:124-328): clone,
    discover files (empty list raises), cap the file count, summarize
    each file (per-file failures skipped), select headings, then the
    3-cycle document loop; any uncaught exception propagates (the
    `except` block re-raises after recording FAILED). -/
def executeModel (clone : Except Err Unit)
    (files : Except Err (List (List Char)))
    (maxFiles : Nat)
    (summarizeFile : List Char → Except Err (Option (List Char)))
    (selectHeadings : List Char → Except Err (List (List Char)))
    (repoName : List Char)
    (write : Nat → List Char → Nat → List Char → Except Err (List Char))
    (review : Nat → List Char → Nat → List Char → Except Err ReviewResult)
    (reviewDoc : Nat → List Char → Except Err FinalReviewResult) :
    Except Err WorkflowResult :=
  match clone with
  | .error e => .error e
  | .ok _ =>
    match files with
    | .error e => .error e
    | .ok fs =>
      if fs = [] then .error noFilesMsg
      else
        let fs2 := if fs.length > maxFiles then fs.take maxFiles else fs
        let digest := summarizerStage (fs2.map summarizeFile)
        match selectHeadings digest with
        | .error e => .error e
        | .ok headings =>
          match docCycles repoName headings write review reviewDoc with
          | .error e => .error e
          | .ok (_, readme, res) =>
            .ok { repo_name := repoName
                  readme := readme
                  files_analyzed := fs2.length
                  headings := headings
                  approved := res.approved
                  completeness_score := res.completeness_score
                  accuracy_score := res.accuracy_score }

/-- `WorkflowStatus.COMPLETED` (workflow.py:28). -/
def statusCOMPLETED : List Char := "completed".data

/-- `WorkflowStatus.FAILED` (workflow.py:29). -/
def statusFAILED : List Char := "failed".data

/-- The job's terminal status: `execute` reaches
    `_update_status(COMPLETED, 100, ...)` exactly when no exception was
    raised; the `except` block sets FAILED and re-raises. -/
def jobFinalStatus (r : Except Err WorkflowResult) : List Char :=
  match r with
  | .ok _ => statusCOMPLETED
  | .error _ => statusFAILED

/-- The surfaced error (`self.error = str(exc)`, workflow.py:323). -/
def jobError (r : Except Err WorkflowResult) : Option Err :=
  match r with
  | .ok _ => none
  | .error e => some e

/-! ## Never-raising oracle wrappers

The spec's document-loop and section-loop tests use stubs whose only
non-trivial behaviour is their verdict; these wrappers lift total stub
functions into the `Except` interface of the workflow (no call raises). -/

/-- A section-writer stub (cycle, heading, attempt, notes) that never
    raises. -/
def okWrite (ws : Nat → List Char → Nat → List Char → List Char) :
    Nat → List Char → Nat → List Char → Except Err (List Char) :=
  fun c h a n => .ok (ws c h a n)

/-- A manager-review stub (cycle, heading, attempt, content) that never
    raises. -/
def okReview (rs : Nat → List Char → Nat → List Char → ReviewResult) :
    Nat → List Char → Nat → List Char → Except Err ReviewResult :=
  fun c h a x => .ok (rs c h a x)

/-- A document-review stub (cycle, readme) that never raises. -/
def okDocReview (rd : Nat → List Char → FinalReviewResult) :
    Nat → List Char → Except Err FinalReviewResult :=
  fun c d => .ok (rd c d)

/-- A per-file summarizer stub that never raises. -/
def okSummarize (sm : List Char → Option (List Char)) :
    List Char → Except Err (Option (List Char)) :=
  fun f => .ok (sm f)

/-- A heading-selector stub that never raises. -/
def okSelect (selH : List Char → List (List Char)) :
    List Char → Except Err (List (List Char)) :=
  fun d => .ok (selH d)

/-- The heading list `executeModel` computes from non-raising summarizer
    and selector stubs (file cap, digest, selection). -/
def selectedHeadings (fs : List (List Char)) (maxFiles : Nat)
    (sm : List Char → Option (List Char))
    (selH : List Char → List (List Char)) : List (List Char) :=
  selH (summarizerStage
    ((if fs.length > maxFiles then fs.take maxFiles else fs).map (okSummarize sm)))

/-! ## Claim theorems -/

/-- C3: the workflow feeds each retry the manager verdict's improvement
    notes via `review.get('improvement_notes', '')` (workflow.py:490),
    but `ManagerAgent.process` returns a dict whose keys are `approved`,
    `quality_score`, `feedback`, `improvement_suggestions` and
    `should_retry` only — the `improvement_notes` key is never present,
    so for EVERY possible review text the notes carried into the next
    attempt's writer prompt are the empty string, never the claimed
    non-empty verdict-derived text. -/
theorem manager_result_lacks_improvement_notes (review : List Char) :
    dictGet (managerProcess review) "improvement_notes".data (PyVal.str []) =
      PyVal.str [] := rfl

/-- C4 (counterexample): the review text `"APPROVED REJECT"` contains an
    approval keyword and a rejection keyword and no verdict/decision
    marker, yet the section-level (manager) extractor returns approved —
    refuting the claim that both extractors resolve such ties to not
    approved.  (The document-level extractor does return false here.) -/
theorem approval_tiebreak_counterexample :
    finalHasApproval "APPROVED REJECT".data = true
    ∧ finalHasRejection "APPROVED REJECT".data = true
    ∧ containsSub "VERDICT".data (pyUpper "APPROVED REJECT".data) = false
    ∧ containsSub "DECISION".data (pyUpper "APPROVED REJECT".data) = false
    ∧ managerExtractApproval "APPROVED REJECT".data = true
    ∧ finalExtractApproval "APPROVED REJECT".data = false := by decide

/-- C4 (amended): on review text containing both an approval and a
    rejection keyword with no verdict marker, the document-level (final
    reviewer) extractor returns not approved; the section-level (manager)
    extractor has no such tie-break — it returns approved whenever the
    trigger `APPROVED` occurs, regardless of rejection keywords. -/
theorem approval_tiebreak_amended :
    (∀ review : List Char,
      finalHasApproval review = true →
      finalHasRejection review = true →
      containsSub kwVERDICT (pyUpper review) = false →
      finalExtractApproval review = false)
    ∧ (∀ review : List Char,
      (containsSub kwYES (pyUpper review) = true
          ∧ containsSub kwAPPROVAL (pyUpper review) = true)
        ∨ containsSub kwAPPROVED (pyUpper review) = true
        ∨ (containsSub kwPROCEED (pyUpper review) = true
          ∧ containsSub kwYES (pyUpper review) = true) →
      managerExtractApproval review = true) := by
  constructor
  · intro review hA hR hV
    simp [finalExtractApproval, hV, hA, hR]
  · intro review h
    rcases h with ⟨h1, h2⟩ | h | ⟨h1, h2⟩
    · simp [managerExtractApproval, h1, h2]
    · simp [managerExtractApproval, h]
    · simp [managerExtractApproval, h1, h2]

/-- C4 (witness): the amended theorem applied at concrete review texts,
    exercising the final reviewer's tie-break and two of the manager's
    triggers (YES with APPROVAL, and APPROVED) on texts that also carry
    rejection keywords. -/
theorem approval_tiebreak_amended_witness :
    finalExtractApproval "ACCEPT but also DENIED".data = false
    ∧ managerExtractApproval "YES, APPROVAL granted. REJECT.".data = true
    ∧ managerExtractApproval "clearly APPROVED yet REJECT".data = true :=
  ⟨approval_tiebreak_amended.1 "ACCEPT but also DENIED".data
      (by decide) (by decide) (by decide),
   approval_tiebreak_amended.2 "YES, APPROVAL granted. REJECT.".data
      (Or.inl ⟨by decide, by decide⟩),
   approval_tiebreak_amended.2 "clearly APPROVED yet REJECT".data
      (Or.inr (Or.inl (by decide)))⟩

/-- C5: category score extraction is total, always lands in [0,100]
    (the result is a `Nat`, so 0 is a lower bound by construction, and
    every matched score is clamped to at most 100), defaults to 75/60 by
    approval classification when no label/pattern matches, and is
    deterministic (two calls on the same text agree). -/
theorem score_extraction_range_default (review category : List Char) :
    extractScore review category ≤ 100
    ∧ (scoreScan (pyUpper category) (splitNL review) = none →
        extractScore review category =
          if finalExtractApproval review then 75 else 60)
    ∧ extractScore review category = extractScore review category := by
  refine ⟨?_, ?_, rfl⟩
  · cases h : scoreScan (pyUpper category) (splitNL review) with
    | none =>
      simp only [extractScore, h]
      split <;> omega
    | some s =>
      simp only [extractScore, h]
      exact Nat.min_le_left 100 _
  · intro h
    simp [extractScore, h]

/-- C5 (witness): on text with no numeric pattern and no approval
    keyword, the scan finds nothing and the default 60 is returned. -/
theorem score_extraction_range_default_witness :
    extractScore "gibberish with no numbers".data "COMPLETENESS".data = 60 := by
  have h :=
    (score_extraction_range_default "gibberish with no numbers".data
      "COMPLETENESS".data).2.1 (by decide)
  rw [h]
  decide

/-- C10: a whitespace-only README short-circuits `FinalReviewerAgent`
    to `_rejection_result` — approved false, both scores 0, a single
    issue naming the empty content, a `REJECTED:` verdict string — and
    the result does not depend on the Gateway oracle (which may even be
    a raised transport error): no text-generation call is consulted. -/
theorem empty_readme_short_circuit (readme : List Char)
    (gateway : Except Err (List Char)) (h : pyStrip readme = []) :
    finalReviewerProcess readme gateway =
      .ok (rejectionResult "README content is empty".data)
    ∧ (rejectionResult "README content is empty".data).approved = false
    ∧ (rejectionResult "README content is empty".data).completeness_score = 0
    ∧ (rejectionResult "README content is empty".data).accuracy_score = 0
    ∧ (rejectionResult "README content is empty".data).issues =
        ["README content is empty".data]
    ∧ (rejectionResult "README content is empty".data).final_verdict =
        "REJECTED: README content is empty".data := by
  refine ⟨by simp [finalReviewerProcess, h], rfl, rfl, rfl, rfl, by decide⟩

/-- C10 (witness): whitespace-only README with an erroring Gateway. -/
theorem empty_readme_short_circuit_witness :
    finalReviewerProcess "  \n ".data (.error "gateway down".data) =
      .ok (rejectionResult "README content is empty".data) :=
  (empty_readme_short_circuit "  \n ".data (.error "gateway down".data)
    (by decide)).1

/-- Helper: `joinNL` on a singleton. -/
theorem joinNL_single (a : List Char) : joinNL [a] = a := by
  simp [joinNL, List.intercalate, List.intersperse]

/-- Helper: `joinNL` peels one part off a two-or-more-part list. -/
theorem joinNL_cons_cons (a b : List Char) (l : List (List Char)) :
    joinNL (a :: b :: l) = a ++ '\n' :: joinNL (b :: l) := by
  simp [joinNL, List.intercalate, List.intersperse]

/-- C2: when the manager rejects every attempt, the section loop runs
    exactly 3 write/review attempts and the content kept (also the entry
    appended for assembly) is the 3rd attempt's output, written against
    the notes chained through the two rejections. -/
theorem section_loop_three_attempts_last_content
    (w : Nat → List Char → List Char) (rv : Nat → List Char → ReviewResult)
    (hrej : ∀ a c, (rv a c).approved = false) (g : List Char) :
    runSection (fun a n => .ok (w a n)) (fun a c => .ok (rv a c)) g =
      .ok (3, w 3 (((rv 2 (w 2 (((rv 1 (w 1 g)).improvement_notes).getD
        []))).improvement_notes).getD []))
    ∧ ∀ h : List Char,
      sectionsLoop (fun _ a n => .ok (w a n)) (fun _ a c => .ok (rv a c)) [h] g =
        .ok [(h, w 3 (((rv 2 (w 2 (((rv 1 (w 1 g)).improvement_notes).getD
          []))).improvement_notes).getD []))] := by
  have hrange : List.range' 1 max_section_retries = [1, 2, 3] := rfl
  constructor
  · unfold runSection
    rw [hrange]
    simp [sectionAttemptsLoop, hrej]
  · intro h
    unfold sectionsLoop runSection
    rw [hrange]
    simp [sectionAttemptsLoop, hrej, sectionsLoop]

/-- C2 (witness): a concrete always-rejecting stub; the 3rd attempt's
    content (`replicate 3 'x'`) is kept. -/
theorem section_loop_three_attempts_last_content_witness :
    runSection (fun a _ => .ok (List.replicate a 'x'))
      (fun _ _ => .ok { approved := false, improvement_notes := some "improve".data })
      "seed".data = .ok (3, "xxx".data) := by
  have h := (section_loop_three_attempts_last_content
    (fun a _ => List.replicate a 'x')
    (fun _ _ => { approved := false, improvement_notes := some "improve".data })
    (fun _ _ => rfl) "seed".data).1
  simpa using h

/-- Helper (C7): the selector's parse loop equals case-insensitive
    first-wins deduplication of the cleaned nonempty lines, for any
    starting `seen` set. -/
theorem headingsDedupGo_eq_dedupCI (ls : List (List Char)) :
    ∀ seen, headingsDedupGo seen ls =
      dedupCaseInsensitiveGo seen
        ((ls.map cleanHeadingLine).filter (fun h => h ≠ [])) := by
  induction ls with
  | nil => intro seen; rfl
  | cons line rest ih =>
    intro seen
    by_cases hh : cleanHeadingLine line = []
    · simp [headingsDedupGo, hh, ih]
    · by_cases hs : seen.contains (pyLower (cleanHeadingLine line)) = true
      · simp [headingsDedupGo, dedupCaseInsensitiveGo, hh, hs, ih]
      · simp [headingsDedupGo, dedupCaseInsensitiveGo, hh, hs, ih]

/-- Helper (C7): deduplication output has pairwise-distinct lowercase
    keys, none of which was already in `seen`. -/
theorem dedupCI_lower_nodup (ls : List (List Char)) :
    ∀ seen, ((dedupCaseInsensitiveGo seen ls).map pyLower).Nodup
      ∧ ∀ k ∈ (dedupCaseInsensitiveGo seen ls).map pyLower, k ∉ seen := by
  induction ls with
  | nil => intro seen; simp [dedupCaseInsensitiveGo]
  | cons h rest ih =>
    intro seen
    by_cases hc : pyLower h ∈ seen
    · have hgo : dedupCaseInsensitiveGo seen (h :: rest) =
          dedupCaseInsensitiveGo seen rest := by
        simp [dedupCaseInsensitiveGo, hc]
      rw [hgo]
      exact ih seen
    · have hgo : dedupCaseInsensitiveGo seen (h :: rest) =
          h :: dedupCaseInsensitiveGo (pyLower h :: seen) rest := by
        simp [dedupCaseInsensitiveGo, hc]
      obtain ⟨ihn, ihs⟩ := ih (pyLower h :: seen)
      refine ⟨?_, ?_⟩
      · rw [hgo, List.map_cons, List.nodup_cons]
        exact ⟨fun hmem => (ihs _ hmem) (List.mem_cons_self _ _), ihn⟩
      · intro k hk
        rw [hgo, List.map_cons, List.mem_cons] at hk
        rcases hk with hk | hk
        · rw [hk]; exact hc
        · exact fun hks => (ihs _ hk) (List.mem_cons_of_mem _ hks)

/-- C7: the heading parser deduplicates case-insensitively with the
    first occurrence winning and order preserved: on the raw output
    `"Features\nfeatures\nInstallation"` the result is
    `["Features", "Installation"]`; in general the parse equals the
    first-wins case-insensitive dedup of the cleaned nonempty lines, and
    no two returned headings share a lowercase form. -/
theorem headings_dedup_case_insensitive :
    parseHeadings "Features\nfeatures\nInstallation".data =
      ["Features".data, "Installation".data]
    ∧ (∀ raw : List Char,
        parseHeadings raw =
          dedupCaseInsensitive
            (((splitNL (pyStrip raw)).map cleanHeadingLine).filter
              (fun h => h ≠ [])))
    ∧ ∀ raw : List Char, ((parseHeadings raw).map pyLower).Nodup := by
  refine ⟨by decide, ?_, ?_⟩
  · intro raw
    exact headingsDedupGo_eq_dedupCI _ []
  · intro raw
    rw [parseHeadings, headingsDedupGo_eq_dedupCI]
    exact (dedupCI_lower_nodup _ []).1

/-- Helper (C8/C1): with oracles that never raise, one heading's retry
    loop never raises. -/
theorem sectionAttemptsLoop_total (w : Nat → List Char → List Char)
    (rv : Nat → List Char → ReviewResult) :
    ∀ (attempts : List Nat) (notes content : List Char) (done : Nat),
      ∃ p, sectionAttemptsLoop (fun a n => .ok (w a n)) (fun a c => .ok (rv a c))
        attempts notes content done = .ok p := by
  intro attempts
  induction attempts with
  | nil => intro notes content done; exact ⟨(done, content), rfl⟩
  | cons a rest ih =>
    intro notes content done
    by_cases hap : (rv a (w a notes)).approved = true
    · exact ⟨(a, w a notes), by simp [sectionAttemptsLoop, hap]⟩
    · obtain ⟨p, hp⟩ := ih (((rv a (w a notes)).improvement_notes).getD [])
        (w a notes) a
      exact ⟨p, by simp [sectionAttemptsLoop, hap, hp]⟩

/-- Helper (C8/C1): with oracles that never raise, the section phase
    never raises and returns exactly one entry per heading, in order. -/
theorem sectionsLoop_total_fst (w : List Char → Nat → List Char → List Char)
    (rv : List Char → Nat → List Char → ReviewResult) :
    ∀ (hs : List (List Char)) (g : List Char),
      ∃ secs, sectionsLoop (fun h a n => .ok (w h a n))
          (fun h a c => .ok (rv h a c)) hs g = .ok secs
        ∧ secs.map Prod.fst = hs := by
  intro hs
  induction hs with
  | nil => intro g; exact ⟨[], rfl, rfl⟩
  | cons h rest ih =>
    intro g
    obtain ⟨p, hp⟩ := sectionAttemptsLoop_total (w h) (rv h)
      (List.range' 1 max_section_retries) g [] 0
    obtain ⟨secs, hsec, hfst⟩ := ih g
    refine ⟨(h, p.2) :: secs, ?_, ?_⟩
    · simp [sectionsLoop, runSection, hp, hsec]
    · simp [hfst]

/-- Helper (C8): the assembly always starts with the `# {repo_name}`
    title line. -/
theorem combineSections_title (repo : List Char)
    (secs : List (List Char × List Char)) :
    ∃ rest, combineSections repo secs = "# ".data ++ repo ++ '\n' :: rest := by
  cases secs with
  | nil =>
    refine ⟨[], ?_⟩
    simp [combineSections, joinNL_single]
  | cons s l =>
    refine ⟨'\n' :: joinNL (s.2 :: ([] : List Char) ::
      ((l.map (fun s => [s.2, ([] : List Char)])).flatten)), ?_⟩
    rw [combineSections]
    simp only [List.map_cons, List.flatten_cons]
    rw [show ([s.2, ([] : List Char)] : List (List Char)) ++
        (l.map (fun s => [s.2, ([] : List Char)])).flatten =
        s.2 :: ([] : List Char) ::
          (l.map (fun s => [s.2, ([] : List Char)])).flatten from rfl]
    rw [joinNL_cons_cons]
    simp

/-- C8: for arbitrary writer/reviewer behaviour (so regardless of which
    sections were approved), the section phase yields exactly one entry
    per selected heading in the selected order — the retry loops never
    add, drop or reorder headings — and the assembled document prepends
    a single title line derived from the repository name. -/
theorem heading_set_invariant_assembly
    (w : List Char → Nat → List Char → List Char)
    (rv : List Char → Nat → List Char → ReviewResult)
    (hs : List (List Char)) (g repo : List Char) :
    ∃ secs,
      sectionsLoop (fun h a n => .ok (w h a n)) (fun h a c => .ok (rv h a c))
        hs g = .ok secs
      ∧ secs.map Prod.fst = hs
      ∧ secs.length = hs.length
      ∧ ∃ rest, combineSections repo secs = "# ".data ++ repo ++ '\n' :: rest := by
  obtain ⟨secs, hsec, hfst⟩ := sectionsLoop_total_fst w rv hs g
  refine ⟨secs, hsec, hfst, ?_, combineSections_title repo secs⟩
  have := congrArg List.length hfst
  simpa using this

/-- Helper (C6): one-step unfolding of `trimLoop` after the main heading
    was found. -/
theorem trimLoop_true_cons (f : Bool) (line : List Char)
    (rest : List (List Char)) :
    trimLoop true f (line :: rest) =
      if (!fenceToggle f (pyStrip line) && topHeadingLine (pyStrip line)) then []
      else line :: trimLoop true (fenceToggle f (pyStrip line)) rest := rfl

/-- Helper (C6): one-step unfolding of `trimLoop` before the main
    heading was found. -/
theorem trimLoop_false_cons (f : Bool) (line : List Char)
    (rest : List (List Char)) :
    trimLoop false f (line :: rest) =
      line :: trimLoop
        (!fenceToggle f (pyStrip line) && topHeadingLine (pyStrip line))
        (fenceToggle f (pyStrip line)) rest := rfl

/-- Helper (C6): one-step unfolding of `topHeadingIdx`. -/
theorem topHeadingIdx_cons (f : Bool) (line : List Char)
    (rest : List (List Char)) :
    topHeadingIdx f (line :: rest) =
      if (!fenceToggle f (pyStrip line) && topHeadingLine (pyStrip line)) then
        0 :: (topHeadingIdx (fenceToggle f (pyStrip line)) rest).map
          (fun i => i + 1)
      else
        (topHeadingIdx (fenceToggle f (pyStrip line)) rest).map
          (fun i => i + 1) := rfl

/-- Helper (C6): once the section's own heading has been seen, if no
    further out-of-fence top-level heading exists, every line is kept. -/
theorem trimLoop_found_nil :
    ∀ (ls : List (List Char)) (f : Bool),
      topHeadingIdx f ls = [] → trimLoop true f ls = ls := by
  intro ls
  induction ls with
  | nil => intro f _; rfl
  | cons line rest ih =>
    intro f h
    rw [topHeadingIdx_cons] at h
    rw [trimLoop_true_cons]
    by_cases hTop : (!fenceToggle f (pyStrip line)
        && topHeadingLine (pyStrip line)) = true
    · rw [if_pos hTop] at h
      exact absurd h (List.cons_ne_nil _ _)
    · rw [if_neg hTop] at h
      rw [if_neg hTop]
      have hrest : topHeadingIdx (fenceToggle f (pyStrip line)) rest = [] :=
        List.map_eq_nil_iff.mp h
      rw [ih _ hrest]

/-- Helper (C6): once the section's own heading has been seen, the scan
    keeps exactly the lines before the next out-of-fence top-level
    heading. -/
theorem trimLoop_found_cons :
    ∀ (ls : List (List Char)) (f : Bool) (i : Nat) (t : List Nat),
      topHeadingIdx f ls = i :: t → trimLoop true f ls = ls.take i := by
  intro ls
  induction ls with
  | nil => intro f i t h; simp [topHeadingIdx] at h
  | cons line rest ih =>
    intro f i t h
    rw [topHeadingIdx_cons] at h
    rw [trimLoop_true_cons]
    by_cases hTop : (!fenceToggle f (pyStrip line)
        && topHeadingLine (pyStrip line)) = true
    · rw [if_pos hTop] at h
      rw [if_pos hTop]
      obtain ⟨rfl, -⟩ := List.cons_eq_cons.mp h
      rfl
    · rw [if_neg hTop] at h
      rw [if_neg hTop]
      cases hx : topHeadingIdx (fenceToggle f (pyStrip line)) rest with
      | nil => rw [hx] at h; simp at h
      | cons i' t' =>
        rw [hx, List.map_cons] at h
        obtain ⟨rfl, -⟩ := List.cons_eq_cons.mp h
        rw [ih _ _ _ hx]
        rfl

/-- Helper (C6): from the initial state, the scan keeps exactly the
    lines before the SECOND out-of-fence top-level heading. -/
theorem trimLoop_unfound :
    ∀ (ls : List (List Char)) (f : Bool) (i j : Nat) (t : List Nat),
      topHeadingIdx f ls = i :: j :: t → trimLoop false f ls = ls.take j := by
  intro ls
  induction ls with
  | nil => intro f i j t h; simp [topHeadingIdx] at h
  | cons line rest ih =>
    intro f i j t h
    rw [topHeadingIdx_cons] at h
    rw [trimLoop_false_cons]
    by_cases hTop : (!fenceToggle f (pyStrip line)
        && topHeadingLine (pyStrip line)) = true
    · rw [if_pos hTop] at h
      rw [hTop]
      obtain ⟨-, h2⟩ := List.cons_eq_cons.mp h
      cases hx : topHeadingIdx (fenceToggle f (pyStrip line)) rest with
      | nil => rw [hx] at h2; simp at h2
      | cons j' t' =>
        rw [hx, List.map_cons] at h2
        obtain ⟨rfl, -⟩ := List.cons_eq_cons.mp h2
        rw [trimLoop_found_cons _ _ _ _ hx]
        rfl
    · rw [if_neg hTop] at h
      rw [Bool.not_eq_true] at hTop
      rw [hTop]
      cases hx : topHeadingIdx (fenceToggle f (pyStrip line)) rest with
      | nil => rw [hx] at h; simp at h
      | cons i' t' =>
        cases t' with
        | nil =>
          rw [hx] at h; simp only [List.map_cons, List.map_nil] at h
          obtain ⟨-, h2⟩ := List.cons_eq_cons.mp h
          exact absurd h2.symm (List.cons_ne_nil _ _)
        | cons j' t'' =>
          rw [hx] at h
          simp only [List.map_cons] at h
          obtain ⟨-, h2⟩ := List.cons_eq_cons.mp h
          obtain ⟨rfl, -⟩ := List.cons_eq_cons.mp h2
          rw [ih _ _ _ _ hx]
          rfl

/-- C6: when the writer output has at least two top-level (H1/H2)
    heading lines outside code fences (fence state toggled only by fence
    marker lines whose remainder has no space — so a `##`-looking line
    inside a fenced block is never an index and never ends the section),
    trimming keeps exactly the lines before the second such heading. -/
theorem trim_single_section_second_heading (content : List Char)
    (i j : Nat) (t : List Nat)
    (h : topHeadingIdx false (splitNL content) = i :: j :: t) :
    trimToSingleSection content =
      pyStrip (joinNL ((splitNL content).take j)) := by
  rw [trimToSingleSection, trimLoop_unfound _ _ i j t h]

/-- C6 (witness): two `##` headings with a fenced fake heading between
    them; the fenced line is kept, the second real heading cut. -/
theorem trim_single_section_second_heading_witness :
    trimToSingleSection
      "## Usage\ntext\n```bash\n## not a heading\n```\nmore\n## Extra\ntail".data =
      "## Usage\ntext\n```bash\n## not a heading\n```\nmore".data := by
  have h := trim_single_section_second_heading
    "## Usage\ntext\n```bash\n## not a heading\n```\nmore\n## Extra\ntail".data
    0 6 [] (by decide)
  rw [h]
  decide

/-- Helper (C1): with never-raising stage stubs and a document reviewer
    that rejects every cycle, the cycle loop runs cycles 1, 2, 3 and ends
    holding cycle 3's assembly and verdict. -/
theorem docCycles_always_reject (repo : List Char) (headings : List (List Char))
    (ws : Nat → List Char → Nat → List Char → List Char)
    (rs : Nat → List Char → Nat → List Char → ReviewResult)
    (rd : Nat → List Char → FinalReviewResult)
    (hrej : ∀ c d, (rd c d).approved = false) :
    ∃ notes3 secs3,
      sectionsLoop (fun h a n => .ok (ws 3 h a n)) (fun h a x => .ok (rs 3 h a x))
        headings notes3 = .ok secs3
      ∧ docCycles repo headings (okWrite ws) (okReview rs) (okDocReview rd) =
          .ok (3, combineSections repo secs3,
            rd 3 (combineSections repo secs3)) := by
  obtain ⟨secs1, hs1, -⟩ := sectionsLoop_total_fst (ws 1) (rs 1) headings []
  obtain ⟨secs2, hs2, -⟩ := sectionsLoop_total_fst (ws 2) (rs 2) headings
    (((rd 1 (combineSections repo secs1)).improvement_details).getD [])
  obtain ⟨secs3, hs3, -⟩ := sectionsLoop_total_fst (ws 3) (rs 3) headings
    (((rd 2 (combineSections repo secs2)).improvement_details).getD [])
  refine ⟨_, secs3, hs3, ?_⟩
  have hrange : List.range' 1 max_full_cycles = [1, 2, 3] := rfl
  have hs1' : sectionsLoop (okWrite ws 1) (okReview rs 1) headings [] =
      .ok secs1 := hs1
  have hs2' : sectionsLoop (okWrite ws 2) (okReview rs 2) headings
      (((rd 1 (combineSections repo secs1)).improvement_details).getD []) =
      .ok secs2 := hs2
  have hs3' : sectionsLoop (okWrite ws 3) (okReview rs 3) headings
      (((rd 2 (combineSections repo secs2)).improvement_details).getD []) =
      .ok secs3 := hs3
  have hOkDoc : ∀ c d, okDocReview rd c d = .ok (rd c d) := fun _ _ => rfl
  unfold docCycles
  rw [hrange]
  simp only [docCyclesLoop, hs1', hs2', hs3', hOkDoc, hrej,
    Bool.false_eq_true, if_false]

/-- C1: when the final reviewer rejects on every cycle (and no
    infrastructure call raises), the coordinator executes exactly 3 full
    write-assemble-review cycles, the job's result document is the 3rd
    cycle's assembly, and the job ends COMPLETED, not FAILED. -/
theorem document_loop_three_cycles_completed
    (ws : Nat → List Char → Nat → List Char → List Char)
    (rs : Nat → List Char → Nat → List Char → ReviewResult)
    (rd : Nat → List Char → FinalReviewResult)
    (hrej : ∀ c d, (rd c d).approved = false)
    (fs : List (List Char)) (hfs : fs ≠ [])
    (maxFiles : Nat) (sm : List Char → Option (List Char))
    (selH : List Char → List (List Char)) (repo : List Char) :
    ∃ notes3 secs3,
      sectionsLoop (fun h a n => .ok (ws 3 h a n)) (fun h a x => .ok (rs 3 h a x))
        (selectedHeadings fs maxFiles sm selH) notes3 = .ok secs3
      ∧ docCycles repo (selectedHeadings fs maxFiles sm selH)
          (okWrite ws) (okReview rs) (okDocReview rd) =
          .ok (3, combineSections repo secs3, rd 3 (combineSections repo secs3))
      ∧ executeModel (.ok ()) (.ok fs) maxFiles (okSummarize sm) (okSelect selH)
          repo (okWrite ws) (okReview rs) (okDocReview rd) =
          .ok { repo_name := repo
                readme := combineSections repo secs3
                files_analyzed :=
                  (if fs.length > maxFiles then fs.take maxFiles else fs).length
                headings := selectedHeadings fs maxFiles sm selH
                approved := false
                completeness_score :=
                  (rd 3 (combineSections repo secs3)).completeness_score
                accuracy_score :=
                  (rd 3 (combineSections repo secs3)).accuracy_score }
      ∧ jobFinalStatus (executeModel (.ok ()) (.ok fs) maxFiles (okSummarize sm)
          (okSelect selH) repo (okWrite ws) (okReview rs) (okDocReview rd)) =
          statusCOMPLETED := by
  obtain ⟨notes3, secs3, hs3, hdoc⟩ :=
    docCycles_always_reject repo (selectedHeadings fs maxFiles sm selH) ws rs rd hrej
  have hexec : executeModel (.ok ()) (.ok fs) maxFiles (okSummarize sm)
      (okSelect selH) repo (okWrite ws) (okReview rs) (okDocReview rd) =
      .ok { repo_name := repo
            readme := combineSections repo secs3
            files_analyzed :=
              (if fs.length > maxFiles then fs.take maxFiles else fs).length
            headings := selectedHeadings fs maxFiles sm selH
            approved := false
            completeness_score :=
              (rd 3 (combineSections repo secs3)).completeness_score
            accuracy_score :=
              (rd 3 (combineSections repo secs3)).accuracy_score } := by
    have hsel : ∀ d, okSelect selH d = .ok (selH d) := fun _ => rfl
    simp only [executeModel, hfs, ite_false, hsel, selectedHeadings] at hdoc ⊢
    simp only [hdoc, hrej]
  exact ⟨notes3, secs3, hs3, hdoc, hexec, by rw [hexec]; rfl⟩

/-- C1 (witness): concrete non-raising stubs with an always-rejecting
    final reviewer; the job still completes. -/
theorem document_loop_three_cycles_completed_witness :
    jobFinalStatus (executeModel (.ok ()) (.ok ["f.py".data]) 90
      (okSummarize (fun _ => some "f.py = s".data))
      (okSelect (fun _ => ["Usage".data])) "r".data
      (okWrite (fun _ _ _ _ => "## Usage\nbody".data))
      (okReview (fun _ _ _ _ => { approved := true, improvement_notes := none }))
      (okDocReview (fun _ _ =>
        { approved := false, improvement_details := some "n".data
          completeness_score := 10, accuracy_score := 20 }))) =
      statusCOMPLETED := by
  obtain ⟨-, -, -, -, -, hstat⟩ := document_loop_three_cycles_completed
    (fun _ _ _ _ => "## Usage\nbody".data)
    (fun _ _ _ _ => { approved := true, improvement_notes := none })
    (fun _ _ => { approved := false, improvement_details := some "n".data
                  completeness_score := 10, accuracy_score := 20 })
    (fun _ _ => rfl) ["f.py".data] (by simp) 90
    (fun _ => some "f.py = s".data) (fun _ => ["Usage".data]) "r".data
  exact hstat

/-- Helper (C9): the summarizer stage silently drops a raised per-file
    error — the digest equals the one computed without the failing file. -/
theorem summarizer_skip_error (xs ys : List (Except Err (Option (List Char))))
    (e : Err) :
    summarizerStage (xs ++ .error e :: ys) = summarizerStage (xs ++ ys) := by
  unfold summarizerStage
  congr 1
  induction xs with
  | nil => rfl
  | cons x xs ih => simp only [List.cons_append, List.foldr_cons, ih]

/-- C9 (counterexample): a Gateway error raised while summarizing the
    first file does NOT fail the job — the file is skipped and the run
    completes — refuting the claim that a Gateway error raised during
    any stage transitions the job to FAILED. -/
theorem gateway_error_in_summarizer_not_fatal :
    (fun f => if f = "a.py".data then
        (.error "LLM call failed".data : Except Err (Option (List Char)))
      else .ok (some "b.py = s".data)) "a.py".data =
        .error "LLM call failed".data
    ∧ jobFinalStatus (executeModel (.ok ()) (.ok ["a.py".data, "b.py".data]) 90
        (fun f => if f = "a.py".data then .error "LLM call failed".data
          else .ok (some "b.py = s".data))
        (fun _ => .ok ["Usage".data]) "r".data
        (fun _ _ _ _ => .ok "## Usage\nbody".data)
        (fun _ _ _ _ => .ok { approved := true, improvement_notes := none })
        (fun _ _ => .ok { approved := true, improvement_details := none
                          completeness_score := 90, accuracy_score := 90 })) =
      statusCOMPLETED := ⟨rfl, rfl⟩

/-- C9 (amended): clone failure, an empty discovered-file list, and
    Gateway errors raised during heading selection, section writing,
    section (manager) review, or final (document) review are fatal — the
    job goes FAILED with the raised message surfaced and the failing
    loop aborts on the spot (no retry: a writer or manager error on
    attempt 1 ends the section loop immediately) — but a Gateway error
    raised while summarizing one file is caught and only skips that
    file: it contributes nothing to the digest and never fails the
    job. -/
theorem infrastructure_errors_fatal_amended :
    (∀ (e : Err) (files : Except Err (List (List Char))) (maxFiles : Nat)
        (sm : List Char → Except Err (Option (List Char)))
        (sel : List Char → Except Err (List (List Char))) (repo : List Char)
        (w : Nat → List Char → Nat → List Char → Except Err (List Char))
        (r : Nat → List Char → Nat → List Char → Except Err ReviewResult)
        (rdoc : Nat → List Char → Except Err FinalReviewResult),
      executeModel (.error e) files maxFiles sm sel repo w r rdoc = .error e
      ∧ jobFinalStatus
          (executeModel (.error e) files maxFiles sm sel repo w r rdoc) =
          statusFAILED
      ∧ jobError (executeModel (.error e) files maxFiles sm sel repo w r rdoc) =
          some e)
    ∧ (∀ (maxFiles : Nat) (sm : List Char → Except Err (Option (List Char)))
        (sel : List Char → Except Err (List (List Char))) (repo : List Char)
        (w : Nat → List Char → Nat → List Char → Except Err (List Char))
        (r : Nat → List Char → Nat → List Char → Except Err ReviewResult)
        (rdoc : Nat → List Char → Except Err FinalReviewResult),
      executeModel (.ok ()) (.ok []) maxFiles sm sel repo w r rdoc =
        .error noFilesMsg)
    ∧ (∀ (fs : List (List Char)), fs ≠ [] → ∀ (e : Err) (maxFiles : Nat)
        (sm : List Char → Except Err (Option (List Char))) (repo : List Char)
        (w : Nat → List Char → Nat → List Char → Except Err (List Char))
        (r : Nat → List Char → Nat → List Char → Except Err ReviewResult)
        (rdoc : Nat → List Char → Except Err FinalReviewResult),
      executeModel (.ok ()) (.ok fs) maxFiles sm (fun _ => .error e) repo
        w r rdoc = .error e)
    ∧ (∀ (w : Nat → List Char → Except Err (List Char))
        (rv : Nat → List Char → Except Err ReviewResult) (g : List Char)
        (e : Err), w 1 g = .error e → runSection w rv g = .error e)
    ∧ (∀ (w : Nat → List Char → Except Err (List Char))
        (rv : Nat → List Char → Except Err ReviewResult) (g c1 : List Char)
        (e : Err), w 1 g = .ok c1 → rv 1 c1 = .error e →
        runSection w rv g = .error e)
    ∧ (∀ (fs : List (List Char)), fs ≠ [] → ∀ (maxFiles : Nat)
        (sm : List Char → Option (List Char))
        (selH : List Char → List (List Char)) (repo : List Char)
        (ws : Nat → List Char → Nat → List Char → List Char)
        (rs : Nat → List Char → Nat → List Char → ReviewResult)
        (rdoc : Nat → List Char → Except Err FinalReviewResult)
        (secs1 : List (List Char × List Char)) (e : Err),
        sectionsLoop (fun h a n => .ok (ws 1 h a n))
          (fun h a x => .ok (rs 1 h a x))
          (selectedHeadings fs maxFiles sm selH) [] = .ok secs1 →
        rdoc 1 (combineSections repo secs1) = .error e →
        executeModel (.ok ()) (.ok fs) maxFiles (okSummarize sm)
          (okSelect selH) repo (okWrite ws) (okReview rs) rdoc = .error e
        ∧ jobFinalStatus (executeModel (.ok ()) (.ok fs) maxFiles
            (okSummarize sm) (okSelect selH) repo (okWrite ws) (okReview rs)
            rdoc) = statusFAILED)
    ∧ (∀ (xs ys : List (Except Err (Option (List Char)))) (e : Err),
        summarizerStage (xs ++ .error e :: ys) = summarizerStage (xs ++ ys)) := by
  refine ⟨?_, ?_, ?_, ?_, ?_, ?_, summarizer_skip_error⟩
  · intro e files maxFiles sm sel repo w r rdoc
    exact ⟨rfl, rfl, rfl⟩
  · intro maxFiles sm sel repo w r rdoc
    rfl
  · intro fs hfs e maxFiles sm repo w r rdoc
    simp only [executeModel, hfs, ite_false]
  · intro w rv g e hw
    have hrange : List.range' 1 max_section_retries = [1, 2, 3] := rfl
    unfold runSection
    rw [hrange]
    simp [sectionAttemptsLoop, hw]
  · intro w rv g c1 e hw hr
    have hrange : List.range' 1 max_section_retries = [1, 2, 3] := rfl
    unfold runSection
    rw [hrange]
    simp [sectionAttemptsLoop, hw, hr]
  · intro fs hfs maxFiles sm selH repo ws rs rdoc secs1 e hs1 hrd
    have hs1' : sectionsLoop (okWrite ws 1) (okReview rs 1)
        (selectedHeadings fs maxFiles sm selH) [] = .ok secs1 := hs1
    have hdoc : docCycles repo (selectedHeadings fs maxFiles sm selH)
        (okWrite ws) (okReview rs) rdoc = .error e := by
      have hrange : List.range' 1 max_full_cycles = [1, 2, 3] := rfl
      unfold docCycles
      rw [hrange]
      simp only [docCyclesLoop, hs1', hrd]
    have hsel : ∀ d, okSelect selH d = .ok (selH d) := fun _ => rfl
    have hex : executeModel (.ok ()) (.ok fs) maxFiles (okSummarize sm)
        (okSelect selH) repo (okWrite ws) (okReview rs) rdoc = .error e := by
      simp only [executeModel, hfs, ite_false, hsel, selectedHeadings] at hdoc ⊢
      simp only [hdoc]
    exact ⟨hex, by rw [hex]; rfl⟩

/-- C9 (witness): the amended theorem at a concrete selector failure, a
    concrete writer failure on attempt 1, a concrete manager-review
    failure on attempt 1, and a concrete final-review failure on
    cycle 1 (the job ends FAILED). -/
theorem infrastructure_errors_fatal_amended_witness :
    executeModel (.ok ()) (.ok ["f.py".data]) 90 (fun _ => .ok none)
      (fun _ => .error "gateway unreachable".data) "r".data
      (fun _ _ _ _ => .ok []) (fun _ _ _ _ => .ok (ReviewResult.mk false none))
      (fun _ _ => .ok (FinalReviewResult.mk false none 0 0)) =
      .error "gateway unreachable".data
    ∧ runSection (fun _ _ => .error "boom".data)
        (fun _ _ => .ok (ReviewResult.mk false none))
        [] = .error "boom".data
    ∧ runSection (fun _ _ => .ok "draft".data)
        (fun _ _ => .error "manager gateway down".data)
        [] = .error "manager gateway down".data
    ∧ jobFinalStatus (executeModel (.ok ()) (.ok ["f.py".data]) 90
        (okSummarize (fun _ => some "f.py = s".data))
        (okSelect (fun _ => ["Usage".data])) "r".data
        (okWrite (fun _ _ _ _ => "body".data))
        (okReview (fun _ _ _ _ => ReviewResult.mk true none))
        (fun _ _ => .error "final gateway down".data)) = statusFAILED := by
  refine ⟨?_, ?_, ?_, ?_⟩
  · exact infrastructure_errors_fatal_amended.2.2.1 ["f.py".data] (by simp)
      "gateway unreachable".data 90 (fun _ => .ok none) "r".data
      (fun _ _ _ _ => .ok []) (fun _ _ _ _ => .ok (ReviewResult.mk false none))
      (fun _ _ => .ok (FinalReviewResult.mk false none 0 0))
  · exact infrastructure_errors_fatal_amended.2.2.2.1
      (fun _ _ => .error "boom".data)
      (fun _ _ => .ok (ReviewResult.mk false none))
      [] "boom".data rfl
  · exact infrastructure_errors_fatal_amended.2.2.2.2.1
      (fun _ _ => .ok "draft".data)
      (fun _ _ => .error "manager gateway down".data)
      [] "draft".data "manager gateway down".data rfl rfl
  · exact (infrastructure_errors_fatal_amended.2.2.2.2.2.1 ["f.py".data]
      (by simp) 90 (fun _ => some "f.py = s".data) (fun _ => ["Usage".data])
      "r".data (fun _ _ _ _ => "body".data)
      (fun _ _ _ _ => ReviewResult.mk true none)
      (fun _ _ => .error "final gateway down".data)
      [("Usage".data, "body".data)] "final gateway down".data rfl rfl).2
